import Mathlib

/-!
Verification of the bedtime-story generation pipeline
(`orchestrator.py`, `judge.py`, `storyteller.py`, `guardrails.py`,
`categorizer.py`, `utils.py`, `story_storage.py`) against its design
specification.

Modelling conventions, used throughout:

* Python values that flow through JSON parsing are modelled by the
  inductive type `PyVal` (numbers are `Int`/`ℚ`; Python `float` is modelled
  exactly by a rational, which is faithful for every comparison the code
  performs since the code never does float arithmetic, only comparisons
  and pass-through storage).
* Every network call to the LLM API is external and non-deterministic; it
  is modelled by an oracle value of type `Except String β` supplied as an
  argument: `.error e` is the call raising an exception with text `e`,
  `.ok v` is a successful response.  The textual prompts the code builds
  are not inspected by any branch of the code, and any response can follow
  any prompt, so the prompt strings are not reconstructed.
* Python exceptions inside a `try` block are modelled with the
  `Except String` monad; `except`-handlers are `match`es on the result.
* `dict.get`, `.upper()`, `+` on dynamically typed values raise
  `AttributeError`/`TypeError` on the wrong type; the helpers `pyGet`,
  `pyUpperE`, `pyAdd` model this with `.error`.
* Python string functions are re-implemented over `List Char`
  (`pyStrip`, `pyLower`, `pySplitChar`, ...) so that terms reduce in the
  kernel.  `str.lower`/`str.upper` are modelled with ASCII case mapping
  and `str.strip` with the ASCII whitespace class, which coincide with
  Python on all the ASCII keyword tables the code uses.
-/

/-- A Python value as produced by `json.loads` (plus `None`/`bool`).
Python distinguishes `int` and `float`; `float` is modelled by `ℚ`. -/
inductive PyVal where
  | none
  | bool (b : Bool)
  | int (n : Int)
  | float (q : ℚ)
  | str (s : String)
  | list (xs : List PyVal)
  | dict (kvs : List (String × PyVal))

/-- Lookup in a Python dict literal; later duplicate keys win, as in
`json.loads`. -/
def pyLookup (kvs : List (String × PyVal)) (key : String) : Option PyVal :=
  match kvs with
  | [] => Option.none
  | (k, v) :: rest =>
    match pyLookup rest key with
    | Option.some w => Option.some w
    | Option.none => if k = key then Option.some v else Option.none

/-- Python `x.get(key, default)`: succeeds on a dict, raises
`AttributeError` on any other value. -/
def pyGet (v : PyVal) (key : String) (default : PyVal) : Except String PyVal :=
  match v with
  | .dict kvs => .ok ((pyLookup kvs key).getD default)
  | _ => .error "AttributeError: get"

/-- Python `x.items()` of a value expected to be a dict. -/
def pyItems (v : PyVal) : Except String (List (String × PyVal)) :=
  match v with
  | .dict kvs => .ok kvs
  | _ => .error "AttributeError: items"

/-- Python truthiness of a value. -/
def pyTruthy : PyVal → Bool
  | .none => false
  | .bool b => b
  | .int n => n != 0
  | .float q => q != 0
  | .str s => s != ""
  | .list xs => !xs.isEmpty
  | .dict kvs => !kvs.isEmpty

/-- Python `+` on dynamic values: concatenates sequences, adds numbers
(`bool` counts as `int`), raises `TypeError` otherwise. -/
def pyAdd : PyVal → PyVal → Except String PyVal
  | .list a, .list b => .ok (.list (a ++ b))
  | .str a, .str b => .ok (.str (a ++ b))
  | .int a, .int b => .ok (.int (a + b))
  | .float a, .float b => .ok (.float (a + b))
  | .int a, .float b => .ok (.float (a + b))
  | .float a, .int b => .ok (.float (a + b))
  | .bool a, .bool b => .ok (.int ((if a then 1 else 0) + if b then 1 else 0))
  | .bool a, .int b => .ok (.int ((if a then 1 else 0) + b))
  | .int a, .bool b => .ok (.int (a + if b then 1 else 0))
  | .bool a, .float b => .ok (.float ((if a then 1 else 0) + b))
  | .float a, .bool b => .ok (.float (a + if b then 1 else 0))
  | _, _ => .error "TypeError: unsupported operand types"

/-- Numeric value of a Python number (`bool` is a subtype of `int` in
Python, so `True` counts as `1`); `0` for non-numbers. -/
def pyToQ : PyVal → ℚ
  | .int n => (n : ℚ)
  | .float q => q
  | .bool b => if b then 1 else 0
  | _ => 0

/-- Python `isinstance(v, (int, float))`; note `bool` passes, being an
`int` subclass. -/
def pyIsNumber : PyVal → Bool
  | .int _ => true
  | .float _ => true
  | .bool _ => true
  | _ => false

/-- ASCII whitespace, the class stripped by `str.strip()` for the ASCII
inputs this code compares against. -/
def pyIsSpace (c : Char) : Bool :=
  c = ' ' || c = '\t' || c = '\n' || c = '\r' || c = '\x0b' || c = '\x0c'

/-- Python `s.strip()`. -/
def pyStrip (s : String) : String :=
  String.mk (((s.data.dropWhile pyIsSpace).reverse.dropWhile pyIsSpace).reverse)

/-- Python `s.lower()` (ASCII case mapping). -/
def pyLower (s : String) : String :=
  String.mk (s.data.map Char.toLower)

/-- Python `s.upper()` (ASCII case mapping). -/
def pyUpperStr (s : String) : String :=
  String.mk (s.data.map Char.toUpper)

/-- Python `x.upper()` on a dynamic value: raises on non-strings. -/
def pyUpperE : PyVal → Except String String
  | .str s => .ok (pyUpperStr s)
  | _ => .error "AttributeError: upper"

/-- First index at which `needle` occurs in `l`, scanning left to right;
`Python str.find` restricted to the found case. -/
def strFindAux (needle : List Char) : List Char → Nat → Option Nat
  | [], i => if needle.isEmpty then Option.some i else Option.none
  | c :: rest, i =>
    if needle.isPrefixOf (c :: rest) then Option.some i
    else strFindAux needle rest (i + 1)

/-- Python `needle in hay` for strings. -/
def strContainsSub (hay needle : String) : Bool :=
  (strFindAux needle.data hay.data 0).isSome

/-- Python slice `l[a:b]` for `0 ≤ a` (clamping of a negative start is
done by the caller exactly as the source does with `max(0, i-20)`). -/
def pySlice (l : List Char) (a b : Nat) : List Char :=
  (l.drop a).take (b - a)

/-- Python `s.startswith(pre)`. -/
def pyStartsWith (s pre : String) : Bool :=
  pre.data.isPrefixOf s.data

/-- Split on a single character, keeping empty fields: Python
`s.split(c)` for a one-character separator. -/
def splitCharAux (p : Char → Bool) : List Char → List Char → List (List Char)
  | [], acc => [acc.reverse]
  | c :: rest, acc =>
    if p c then acc.reverse :: splitCharAux p rest []
    else splitCharAux p rest (c :: acc)

/-- Python `s.split(c)` for a one-character separator `c`. -/
def pySplitChar (c : Char) (s : String) : List String :=
  (splitCharAux (· = c) s.data []).map String.mk

/-- Python `s.split()` with no argument: split on whitespace runs and
drop empty fields. -/
def pySplitWs (s : String) : List String :=
  ((splitCharAux pyIsSpace s.data []).map String.mk).filter (· ≠ "")

/-- Python `s.split(':', 1)[1]`: everything after the first occurrence of
`c`; callers only use it on lines guarded by a `startswith` check whose
prefix ends with the separator. -/
def pyAfterChar (c : Char) (s : String) : String :=
  String.mk ((s.data.dropWhile (· ≠ c)).drop 1)

/-- Python `str(x)` for the values interpolated into feedback text.
Containers use a simplified `repr`; numeric formatting of a float uses
the reduced fraction when it is not an integer (the code never branches
on this text). -/
def pyNumStr (q : ℚ) : String :=
  if q.den = 1 then toString q.num ++ ".0" else toString q

mutual

/-- Python `str(x)` (top level: strings print without quotes). -/
def pyStr : PyVal → String
  | .none => "None"
  | .bool b => if b then "True" else "False"
  | .int n => toString n
  | .float q => pyNumStr q
  | .str s => s
  | .list xs => "[" ++ String.intercalate ", " (pyReprList xs) ++ "]"
  | .dict kvs => "\x7b" ++ String.intercalate ", " (pyReprKVs kvs) ++ "\x7d"

/-- Python `repr(x)` as used inside container printing. -/
def pyReprV : PyVal → String
  | .str s => "'" ++ s ++ "'"
  | v => pyStr v

def pyReprList : List PyVal → List String
  | [] => []
  | x :: xs => pyReprV x :: pyReprList xs

def pyReprKVs : List (String × PyVal) → List String
  | [] => []
  | (k, v) :: kvs => ("'" ++ k ++ "': " ++ pyReprV v) :: pyReprKVs kvs

end

/-- Configuration values read from `config.py` (`JUDGE_CONFIG`,
`ORCHESTRATION_CONFIG`, `GUARDRAIL_CONFIG`).  The claims are parametric
in these, so they are carried as an explicit record. -/
structure Config where
  enable_iterative_refinement : Bool
  max_revision_attempts : Nat
  minimum_acceptance_score : ℚ
  enable_categorization : Bool
  enable_content_filter : Bool
  enable_age_check : Bool

/-! ## Guardrails (`guardrails.py`, class `StoryGuardrails`)

`use_llm_guardrails` is the constant `True` in `__init__`, so
`check_content_safety` always takes the LLM branch, whose internal
`try`/`except` falls back to the keyword check. -/

namespace StoryGuardrails

def danger_keywords : List String :=
  ["kill", "death", "die", "blood", "weapon", "gun", "knife"]

def fear_keywords : List String :=
  ["terrifying", "horror", "nightmare", "scary", "frightening"]

def inappropriate_keywords : List String :=
  ["hate", "stupid", "idiot", "dumb"]

/-- The 40-character window `story_lower[max(0, i-20):i+20]` around the
first occurrence of the keyword (`i-20` on `Nat` is already clamped). -/
def contextAt (story_lower : String) (idx : Nat) : String :=
  String.mk (pySlice story_lower.data (idx - 20) (idx + 20))

/-- `_keyword_content_safety_check`: the pure keyword fallback. -/
def keyword_content_safety_check (story : String) : Bool × List String :=
  let story_lower := pyLower story
  let dviol := danger_keywords.filterMap (fun keyword =>
    match strFindAux keyword.data story_lower.data 0 with
    | Option.some idx =>
      let context := contextAt story_lower idx
      if !(strContainsSub context "not ") && !(strContainsSub context "no ")
          && !(strContainsSub context "never ") then
        Option.some ("Contains dangerous content: '" ++ keyword ++ "'")
      else Option.none
    | Option.none => Option.none)
  let fviol := fear_keywords.filterMap (fun keyword =>
    match strFindAux keyword.data story_lower.data 0 with
    | Option.some idx =>
      let context := contextAt story_lower idx
      if !(strContainsSub context "not ") && !(strContainsSub context "no ") then
        Option.some ("Contains scary content: '" ++ keyword ++ "'")
      else Option.none
    | Option.none => Option.none)
  let iviol := inappropriate_keywords.filterMap (fun keyword =>
    if strContainsSub story_lower keyword then
      Option.some ("Contains inappropriate language: '" ++ keyword ++ "'")
    else Option.none)
  let violations := dviol ++ fviol ++ iviol
  (violations.isEmpty, violations)

/-- The keyword result in the dynamic shape `(is_safe, violations)` used
by the LLM branch. -/
def keywordAsPy (story : String) : PyVal × PyVal :=
  let r := keyword_content_safety_check story
  (.bool r.1, .list (r.2.map PyVal.str))

/-- `_llm_content_safety_check`: parse the safety verdict JSON; any
exception (network failure, bad JSON, `.get` of a non-dict, a `+` type
error) falls back to the keyword check.  `api` is the oracle for the
parsed response of the safety model. -/
def llm_content_safety_check (story : String) (api : Except String PyVal) :
    PyVal × PyVal :=
  match api with
  | .error _ => keywordAsPy story
  | .ok result =>
    match pyGet result "is_safe" (.bool false) with
    | .error _ => keywordAsPy story
    | .ok is_safe =>
      match pyGet result "violations" (.list []) with
      | .error _ => keywordAsPy story
      | .ok violations =>
        match pyGet result "concerns" (.list []) with
        | .error _ => keywordAsPy story
        | .ok concerns =>
          match pyAdd violations concerns with
          | .error _ => keywordAsPy story
          | .ok combined => (is_safe, combined)

/-- `check_content_safety`. -/
def check_content_safety (cfg : Config) (story : String)
    (api : Except String PyVal) : PyVal × PyVal :=
  if !cfg.enable_content_filter then (.bool true, .list [])
  else if story = "" ∨ pyStrip story = "" then
    (.bool false, .list [.str "Empty story"])
  else llm_content_safety_check story api

def complex_words : List String :=
  ["nevertheless", "consequently", "furthermore", "therefore"]

def positive_keywords : List String :=
  ["kind", "friend", "help", "love", "happy", "smile", "laugh", "joy"]

/-- `check_age_appropriateness`: pure heuristics on sentence length,
vocabulary and positive keywords. -/
def check_age_appropriateness (cfg : Config) (story : String) :
    Bool × List String :=
  if !cfg.enable_age_check then (true, [])
  else
    let sentences := pySplitChar '.' story
    let long_sentences := sentences.filter (fun s => (pySplitWs s).length > 25)
    let issues1 :=
      if long_sentences.length > 3 then
        ["Too many long sentences for target age group"]
      else []
    let complex_count :=
      (complex_words.filter (fun word => strContainsSub (pyLower story) (pyLower word))).length
    let issues2 :=
      if complex_count > 5 then
        ["Vocabulary may be too complex for younger children"]
      else []
    let positive_count :=
      (positive_keywords.filter (fun word => strContainsSub (pyLower story) (pyLower word))).length
    let issues3 :=
      if positive_count < 3 then
        ["Story may lack sufficient positive elements"]
      else []
    let issues := issues1 ++ issues2 ++ issues3
    (issues.isEmpty, issues)

/-- Result dict of `validate_story`.  Python computes
`is_safe and is_appropriate`, whose value is one of the two operands;
every consumer only tests its truthiness, which this Bool is. -/
structure ValidationResult where
  is_valid : Bool
  is_safe : PyVal
  is_age_appropriate : Bool
  safety_violations : PyVal
  age_issues : List String
  all_issues : PyVal

def ValidationResult.toPyVal (v : ValidationResult) : PyVal :=
  .dict [("is_valid", .bool v.is_valid), ("is_safe", v.is_safe),
    ("is_age_appropriate", .bool v.is_age_appropriate),
    ("safety_violations", v.safety_violations),
    ("age_issues", .list (v.age_issues.map PyVal.str)),
    ("all_issues", v.all_issues)]

/-- `validate_story`.  The final `safety_violations + age_issues` is a
dynamic `+` that raises `TypeError` when the LLM returned string-typed
violation fields; that exception propagates to the caller, hence the
`Except` result. -/
def validate_story (cfg : Config) (api : Except String PyVal)
    (story : String) : Except String ValidationResult :=
  let safety := check_content_safety cfg story api
  let age := check_age_appropriateness cfg story
  match pyAdd safety.2 (.list (age.2.map PyVal.str)) with
  | .error e => .error e
  | .ok all_issues =>
    .ok { is_valid := pyTruthy safety.1 && age.1, is_safe := safety.1,
          is_age_appropriate := age.1, safety_violations := safety.2,
          age_issues := age.2, all_issues := all_issues }

end StoryGuardrails

/-- `sanitize_text` (`utils.py`, lines 148-162) on a string argument:
the empty string passes through, text longer than `max_length`
characters is truncated to its first `max_length` characters with a
`"... [truncated]"` marker appended, anything else is unchanged.  (The
`not isinstance(text, str)` branch is unreachable here: every caller
passes a `str`.) -/
def sanitize_text (text : String) (max_length : Nat) : String :=
  if text = "" then ""
  else if max_length < text.data.length then
    String.mk (text.data.take max_length) ++ "... [truncated]"
  else text

/-! ## Categorizer (`categorizer.py`, class `StoryCategorizer`) -/

namespace StoryCategorizer

def categories : List String :=
  ["adventure", "friendship", "fantasy", "animals", "default"]

/-- The dict built by `categorize_and_extract` (and by the fallback);
`raw_analysis` is absent in the dict returned by
`Storyteller.categorize_request` when categorization is disabled. -/
structure Categorization where
  category : String
  characters : List String
  theme : String
  setting : String
  elements : List String
  tone : String
  raw_analysis : Option String

/-- `_fallback_categorize`: keyword categorization used when the LLM
call or its parsing raised. -/
def fallback_categorize (user_request : String) : Categorization :=
  let request_lower := pyLower user_request
  let category :=
    if ["adventure", "journey", "quest", "explore", "discover"].any
        (fun word => strContainsSub request_lower word) then "adventure"
    else if ["friend", "friendship", "together", "help"].any
        (fun word => strContainsSub request_lower word) then "friendship"
    else if ["magic", "wizard", "fairy", "dragon", "castle", "princess"].any
        (fun word => strContainsSub request_lower word) then "fantasy"
    else if ["animal", "cat", "dog", "bird", "rabbit", "bear", "lion"].any
        (fun word => strContainsSub request_lower word) then "animals"
    else "default"
  { category := category, characters := [], theme := "", setting := "",
    elements := [], tone := "neutral",
    raw_analysis := Option.some "Fallback categorization" }

/-- One step of the line-parsing loop in `categorize_and_extract`
(the `elif` chain over `CATEGORY:`, `CHARACTERS:`, ...). -/
def parseLine (st : Categorization) (line : String) : Categorization :=
  if pyStartsWith line "CATEGORY:" then
    let cat := pyLower (pyStrip (pyAfterChar ':' line))
    if cat ∈ categories then { st with category := cat } else st
  else if pyStartsWith line "CHARACTERS:" then
    let chars := pyStrip (pyAfterChar ':' line)
    if pyLower chars ≠ "none specified" then
      { st with characters := (pySplitChar ',' chars).map pyStrip }
    else st
  else if pyStartsWith line "THEME:" then
    { st with theme := pyStrip (pyAfterChar ':' line) }
  else if pyStartsWith line "SETTING:" then
    { st with setting := pyStrip (pyAfterChar ':' line) }
  else if pyStartsWith line "ELEMENTS:" then
    let elems := pyStrip (pyAfterChar ':' line)
    if pyLower elems ≠ "none" then
      { st with elements := (pySplitChar ',' elems).map pyStrip }
    else st
  else if pyStartsWith line "TONE:" then
    { st with tone := pyStrip (pyAfterChar ':' line) }
  else st

/-- `categorize_and_extract`: inside the `try` block the request is
first rebound to `sanitize_text(user_request, max_length=5000)` (line
71; `sanitize_text` itself cannot raise on a string), then on a
successful LLM response the six labelled lines are parsed; any
exception (only the API call can raise here) falls back to
`_fallback_categorize` - applied to the rebound, i.e. sanitized,
request.  `api` is the oracle for the raw response text. -/
def categorize_and_extract (api : Except String String)
    (user_request : String) : Categorization :=
  let user_request := sanitize_text user_request 5000
  match api with
  | .error _ => fallback_categorize user_request
  | .ok analysis =>
    let lines := pySplitChar '\n' analysis
    let init : Categorization :=
      { category := "default", characters := [], theme := "", setting := "",
        elements := [], tone := "neutral", raw_analysis := Option.none }
    let parsed := lines.foldl parseLine init
    { parsed with raw_analysis := Option.some analysis }

end StoryCategorizer

/-! ## Judge (`judge.py`, class `StoryJudge`)

The response pipeline `json.loads` / `safe_parse_json(text, {})` never
raises: `safe_parse_json` catches every decode failure and returns its
fallback dict.  The oracle therefore supplies the raw response text
together with the parsed `evaluation_data` value (an arbitrary `PyVal`;
the fallback case is the empty dict). -/

namespace StoryJudge

/-- The dict returned by `evaluate_story`.  `scores` and `raw_response`
are only present on the successful path, `error` only on the two error
paths; optional fields model the differing key sets. -/
structure EvalResult where
  verdict : String
  overall_score : ℚ
  detailed_feedback : String
  meets_threshold : Bool
  scores : Option PyVal
  raw_response : Option String
  error : Option String

/-- The early-return dict for an empty or whitespace-only story. -/
def emptyStoryResult : EvalResult :=
  { verdict := "ERROR", overall_score := 0,
    detailed_feedback := "Empty story provided for evaluation",
    meets_threshold := false, scores := Option.none,
    raw_response := Option.none, error := Option.some "Empty story" }

/-- The `except Exception` dict of `evaluate_story`. -/
def exceptionResult (e : String) : EvalResult :=
  { verdict := "ERROR", overall_score := 0,
    detailed_feedback := "Error during evaluation: " ++ e,
    meets_threshold := false, scores := Option.none,
    raw_response := Option.none, error := Option.some e }

/-- The body of the `try` block of `evaluate_story` after parsing:
extraction with defaults, the `isinstance` coercion of the overall
score, verdict determination and feedback formatting.  Each dynamic
`.get`/`.upper()` may raise, in source order. -/
def evalParse (min_score : ℚ) (raw : String) (data : PyVal) :
    Except String EvalResult :=
  match pyGet data "scores" (.dict []) with
  | .error e => .error e
  | .ok scores =>
  match pyGet data "feedback" (.dict []) with
  | .error e => .error e
  | .ok feedback =>
  match pyGet data "verdict" (.str "REVISE") with
  | .error e => .error e
  | .ok verdict_raw =>
  match pyUpperE verdict_raw with
  | .error e => .error e
  | .ok verdict_str =>
  match pyGet scores "overall" (.float 0) with
  | .error e => .error e
  | .ok overall_raw =>
  let overall_pv : PyVal := if pyIsNumber overall_raw then overall_raw else .float 0
  let overall : ℚ := pyToQ overall_pv
  let verdict := if verdict_str = "ACCEPT" ∨ min_score ≤ overall then "ACCEPT" else "REVISE"
  match pyItems scores with
  | .error e => .error e
  | .ok items =>
  match pyGet feedback "what_works_well" (.str "N/A") with
  | .error e => .error e
  | .ok www =>
  match pyGet feedback "suggestions_for_improvement" (.str "N/A") with
  | .error e => .error e
  | .ok sfi =>
  let score_lines := (items.filter (fun kv => kv.1 ≠ "overall")).map
    (fun kv => "- " ++ kv.1 ++ ": " ++ pyStr kv.2 ++ "/10")
  let detailed_feedback :=
    "SCORES:\n" ++ String.intercalate "\n" score_lines ++
    "\n\nOverall Score: " ++ pyStr overall_pv ++ "/10\n\nFEEDBACK:\nWhat Works Well: " ++
    pyStr www ++ "\n\nSuggestions for Improvement: " ++ pyStr sfi ++
    "\n\nVERDICT: " ++ verdict ++ "\n"
  .ok { verdict := verdict, overall_score := overall,
        detailed_feedback := detailed_feedback,
        meets_threshold := decide (min_score ≤ overall),
        scores := Option.some scores, raw_response := Option.some raw,
        error := Option.none }

/-- `evaluate_story`.  `api` is the oracle for `_call_judge_api`
composed with the never-raising JSON parse: `.error e` is any exception
out of the (retried) API call, `.ok (raw, data)` is the raw response
text and its parsed value.  An empty or whitespace-only story returns
early, before any API call is made - hence the result in that case does
not depend on `api` at all. -/
def evaluate_story (min_score : ℚ) (story : String) (user_request : String)
    (api : Except String (String × PyVal)) : EvalResult :=
  if story = "" ∨ pyStrip story = "" then emptyStoryResult
  else
    match api with
    | .error e => exceptionResult e
    | .ok (raw, data) =>
      match evalParse min_score raw data with
      | .ok r => r
      | .error e => exceptionResult e

end StoryJudge

/-! ## Storyteller (`storyteller.py`, class `Storyteller`) -/

namespace Storyteller

/-- Oracles for one `generate_story` call: the categorizer API, the
story API (`.ok Option.none` models a `None` message content) and the
guardrail safety model used by the validation of the produced story. -/
structure GenEnv where
  catApi : Except String String
  storyApi : Except String (Option String)
  safetyApi : Except String PyVal

/-- The dict returned by `generate_story` (the `variety_config` entry is
an opaque pass-through of the sampled style tables and is not modelled;
no claim and no branch of the code reads it). -/
structure GenResult where
  story : String
  category : String
  categorization : StoryCategorizer.Categorization
  validation : PyVal
  is_valid : Bool
  error : Option String

/-- `categorize_request`: fixed default dict when categorization is
disabled, otherwise the LLM categorizer. -/
def categorize_request (cfg : Config) (api : Except String String)
    (user_request : String) : StoryCategorizer.Categorization :=
  if !cfg.enable_categorization then
    { category := "default", characters := [], theme := "", setting := "",
      elements := [], tone := "neutral", raw_analysis := Option.none }
  else StoryCategorizer.categorize_and_extract api user_request

/-- The `except Exception` dict of `generate_story`. -/
def genErrorResult (categorization : StoryCategorizer.Categorization)
    (e : String) : GenResult :=
  { story := "", category := categorization.category,
    categorization := categorization,
    validation := .dict [("is_valid", .bool false), ("error", .str e)],
    is_valid := false, error := Option.some e }

/-- `generate_story`: categorize, call the story API, validate through
the guardrails; any exception inside the `try` block (the API call, or a
`TypeError` escaping `validate_story`) yields the error dict with an
empty story and `is_valid = False`. -/
def generate_story (cfg : Config) (env : GenEnv) (user_request : String) :
    GenResult :=
  let categorization := categorize_request cfg env.catApi user_request
  match env.storyApi with
  | .error e => genErrorResult categorization e
  | .ok content =>
    let story := content.getD ""
    match StoryGuardrails.validate_story cfg env.safetyApi story with
    | .error e => genErrorResult categorization e
    | .ok validation =>
      { story := story, category := categorization.category,
        categorization := categorization,
        validation := validation.toPyVal,
        is_valid := validation.is_valid, error := Option.none }

end Storyteller

/-! ## Storage (`story_storage.py`, class `StoryStorage`)

The SQLite table is modelled as a list of typed rows.  A TEXT column
holding `json.dumps(v)` is modelled by the value `v` itself: the
standard library guarantees `json.loads(json.dumps(v)) = v` for the JSON
values `PyVal` ranges over, and `json.dumps` never returns the empty
string, so the `if row[col] else` falsy guard of `_row_to_dict` always
takes the `loads` branch.  `CURRENT_TIMESTAMP` is modelled by a
monotone clock counter, `hash()` (process-seeded) by an oracle
function, and a locked/failed database by the `dbOk` flag that selects
the `except` path of `save_story`. -/

namespace StoryStorage

/-- One row of the `stories` table; `is_valid` and
`meets_quality_threshold` are the INTEGER columns written as `1`/`0`. -/
structure StoryRow where
  id : Nat
  story_text : String
  user_request : String
  category : String
  categorization : PyVal
  judge_score : ℚ
  judge_feedback : String
  revision_count : Nat
  is_valid : Int
  meets_quality_threshold : Int
  validation : PyVal
  parent_settings : PyVal
  created_at : Nat
  story_hash : String

/-- The database: rows, the AUTOINCREMENT counter and the clock. -/
structure Storage where
  rows : List StoryRow
  next_id : Nat
  clock : Nat

/-- Invariants maintained by SQLite AUTOINCREMENT: ids start at 1 and
every stored id is below the counter. -/
def Storage.Wf (db : Storage) : Prop :=
  1 ≤ db.next_id ∧ ∀ r ∈ db.rows, r.id < db.next_id

/-- The `story_data` dict as passed by the orchestrator; `save_story`
reads it with `.get` defaults and every key is present there. -/
structure StoryData where
  story : String
  user_request : String
  category : String
  categorization : PyVal
  judge_score : ℚ
  judge_feedback : String
  revision_count : Nat
  is_valid : Bool
  meets_quality_threshold : Bool
  validation : PyVal
  parent_settings : PyVal

/-- `save_story`: INSERT the serialized record and return
`cursor.lastrowid`; on a database error (modelled by `dbOk = false`) the
`except` handler returns `0` and nothing is written. -/
def save_story (db : Storage) (story_data : StoryData)
    (hashFn : String → Int) (dbOk : Bool) : Storage × Nat :=
  if dbOk then
    let row : StoryRow :=
      { id := db.next_id, story_text := story_data.story,
        user_request := story_data.user_request,
        category := story_data.category,
        categorization := story_data.categorization,
        judge_score := story_data.judge_score,
        judge_feedback := story_data.judge_feedback,
        revision_count := story_data.revision_count,
        is_valid := if story_data.is_valid then 1 else 0,
        meets_quality_threshold :=
          if story_data.meets_quality_threshold then 1 else 0,
        validation := story_data.validation,
        parent_settings := story_data.parent_settings,
        created_at := db.clock,
        story_hash := toString (hashFn story_data.story) }
    ({ rows := db.rows ++ [row], next_id := db.next_id + 1,
       clock := db.clock + 1 }, db.next_id)
  else (db, 0)

/-- The dict built by `_row_to_dict`: JSON blobs are parsed back
(`loads ∘ dumps = id`, see the namespace comment) and the INTEGER flags
go through `bool(...)`. -/
structure RecordDict where
  id : Nat
  story : String
  user_request : String
  category : String
  categorization : PyVal
  judge_score : ℚ
  judge_feedback : String
  revision_count : Nat
  is_valid : Bool
  meets_quality_threshold : Bool
  validation : PyVal
  parent_settings : PyVal
  created_at : Nat

/-- `_row_to_dict`. -/
def row_to_dict (r : StoryRow) : RecordDict :=
  { id := r.id, story := r.story_text, user_request := r.user_request,
    category := r.category, categorization := r.categorization,
    judge_score := r.judge_score, judge_feedback := r.judge_feedback,
    revision_count := r.revision_count,
    is_valid := r.is_valid != 0,
    meets_quality_threshold := r.meets_quality_threshold != 0,
    validation := r.validation, parent_settings := r.parent_settings,
    created_at := r.created_at }

/-- `get_story`: `SELECT * FROM stories WHERE id = ?` with `fetchone`.
The SELECT leaves the table unchanged; the unchanged database is
returned alongside the result to state that as a theorem. -/
def get_story (db : Storage) (story_id : Nat) :
    Option RecordDict × Storage :=
  ((db.rows.find? (fun r => r.id == story_id)).map row_to_dict, db)

/-- `ORDER BY created_at DESC` via insertion sort (larger timestamps
first). -/
def insertDescByCreated (r : StoryRow) : List StoryRow → List StoryRow
  | [] => [r]
  | x :: xs =>
    if x.created_at < r.created_at then r :: x :: xs
    else x :: insertDescByCreated r xs

def orderByCreatedDesc (rows : List StoryRow) : List StoryRow :=
  rows.foldr insertDescByCreated []

/-- `get_all_stories`: the `LIMIT`/`OFFSET` clause is appended only
when `limit` is truthy (so `Option.some 0`, like Python `0`, is falsy and
yields the unlimited query). -/
def get_all_stories (db : Storage) (limit : Option Nat) (offset : Nat) :
    List RecordDict × Storage :=
  let sorted := orderByCreatedDesc db.rows
  let selected :=
    match limit with
    | Option.some l => if l ≠ 0 then (sorted.drop offset).take l else sorted
    | Option.none => sorted
  (selected.map row_to_dict, db)

/-- `search_stories`: `LIKE '%q%'` on the request or the story text;
SQLite LIKE is ASCII case-insensitive, modelled by lowering both
sides (LIKE metacharacters inside `query` are not modelled). -/
def search_stories (db : Storage) (query : String) (limit : Nat) :
    List RecordDict × Storage :=
  let pat := pyLower query
  let matched := (orderByCreatedDesc db.rows).filter (fun r =>
    strContainsSub (pyLower r.user_request) pat ||
    strContainsSub (pyLower r.story_text) pat)
  ((matched.take limit).map row_to_dict, db)

/-- `filter_stories`: conjunction of the optional conditions (the
category condition is only added when `category` is truthy, i.e. not
`None` and not the empty string). -/
def filter_stories (db : Storage) (category : Option String)
    (min_score max_score : Option ℚ) (limit : Nat) :
    List RecordDict × Storage :=
  let cond := fun (r : StoryRow) =>
    (match category with
     | Option.some c => if c ≠ "" then r.category == c else true
     | Option.none => true) &&
    (match min_score with
     | Option.some m => decide (m ≤ r.judge_score)
     | Option.none => true) &&
    (match max_score with
     | Option.some m => decide (r.judge_score ≤ m)
     | Option.none => true)
  ((((orderByCreatedDesc db.rows).filter cond).take limit).map row_to_dict, db)

structure Stats where
  total_stories : Nat
  average_score : ℚ
  category_distribution : List (String × Nat)
  stories_meeting_threshold : Nat
  average_revisions : ℚ

/-- Python `round(x, 2)` (ties use round-half-even in Python; the
difference to `round` only arises at exact half-cent ties and no claim
depends on this output). -/
def roundTo2 (q : ℚ) : ℚ := (round (q * 100) : ℤ) / 100

/-- Counts per category, largest first, as delivered by
`GROUP BY category ORDER BY count DESC`. -/
def insertDescByCount (p : String × Nat) :
    List (String × Nat) → List (String × Nat)
  | [] => [p]
  | x :: xs => if x.2 < p.2 then p :: x :: xs else x :: insertDescByCount p xs

/-- `get_statistics`: aggregate SELECTs; `AVG` of no rows is NULL,
which the `if result else` turns into `0.0`. -/
def get_statistics (db : Storage) : Stats × Storage :=
  let total := db.rows.length
  let scored := db.rows.filter (fun r => decide (0 < r.judge_score))
  let average_score :=
    if scored.length = 0 then 0
    else roundTo2 ((scored.map (fun r => r.judge_score)).sum / scored.length)
  let cats := (db.rows.map (fun r => r.category)).dedup
  let pairs := cats.map (fun c =>
    (c, (db.rows.filter (fun r => r.category == c)).length))
  let category_distribution := pairs.foldr insertDescByCount []
  let meeting :=
    (db.rows.filter (fun r => r.meets_quality_threshold == 1)).length
  let average_revisions :=
    if total = 0 then 0
    else roundTo2 ((db.rows.map (fun r => (r.revision_count : ℚ))).sum / total)
  ({ total_stories := total, average_score := average_score,
     category_distribution := category_distribution,
     stories_meeting_threshold := meeting,
     average_revisions := average_revisions }, db)

/-- `delete_story`: `DELETE FROM stories WHERE id = ?`; `deleted` is
`cursor.rowcount > 0`. -/
def delete_story (db : Storage) (story_id : Nat) : Bool × Storage :=
  let remaining := db.rows.filter (fun r => r.id != story_id)
  (decide (remaining.length < db.rows.length), { db with rows := remaining })

end StoryStorage

/-- The categorization dict as a Python value, as serialized by
`json.dumps` in `save_story` (`raw_analysis` is present only on the
paths that set it). -/
def StoryCategorizer.Categorization.toPyVal
    (c : StoryCategorizer.Categorization) : PyVal :=
  .dict ([("category", .str c.category),
    ("characters", .list (c.characters.map PyVal.str)),
    ("theme", .str c.theme), ("setting", .str c.setting),
    ("elements", .list (c.elements.map PyVal.str)),
    ("tone", .str c.tone)] ++
    (match c.raw_analysis with
     | Option.some raw => [("raw_analysis", PyVal.str raw)]
     | Option.none => []))

/-! ## Orchestrator (`orchestrator.py`, class `StoryOrchestrator`) -/

namespace StoryOrchestrator

/-- Oracles for one `generate_story_with_judge` run: the initial
generation, the one safety-focused regeneration, and - indexed by the
current `revision_count`, which uniquely identifies the loop iteration
since every continuing iteration increments it - the judge call and the
revision generation of each iteration, plus the final validation and
evaluation calls after the loop. -/
structure OrchEnv where
  initGen : Storyteller.GenEnv
  retryGen : Storyteller.GenEnv
  reviseGen : Nat → Storyteller.GenEnv
  judgeApi : Nat → Except String (String × PyVal)
  finalJudgeApi : Except String (String × PyVal)
  finalSafetyApi : Except String PyVal

/-- The mutable state of the `while` loop: the current draft and
`revision_count`. -/
structure LoopState where
  story : String
  revision_count : Nat

/-- Why the `while` loop stopped: the three `break`s / the exhausted
loop condition.  `budgetExhausted` covers both the false `while`
condition and the `else: break` of the inner revision guard. -/
inductive ExitReason where
  | approved
  | budgetExhausted
  | guardrailFailed
  deriving DecidableEq

/-- The state at loop exit, the exit reason, and the number of times
the loop body was entered. -/
structure LoopResult where
  story : String
  revision_count : Nat
  reason : ExitReason
  iterations : Nat

/-- The iterative refinement `while` loop of `generate_story_with_judge`
(lines 52-86): evaluate the draft; stop approved on `meets_threshold`;
otherwise, with revisions left, regenerate - keeping the revised draft
and incrementing `revision_count` only when it passes the guardrails,
and stopping with the previous draft when it does not; with no
revisions left, stop with the current draft. -/
def refineGo (cfg : Config) (env : OrchEnv) (user_request : String)
    (st : LoopState) : LoopResult :=
  if h : st.revision_count < cfg.max_revision_attempts then
    let evaluation := StoryJudge.evaluate_story cfg.minimum_acceptance_score
      st.story user_request (env.judgeApi st.revision_count)
    if evaluation.meets_threshold then
      ⟨st.story, st.revision_count, .approved, 1⟩
    else if st.revision_count < cfg.max_revision_attempts - 1 then
      let revised_result := Storyteller.generate_story cfg
        (env.reviseGen st.revision_count) user_request
      if revised_result.is_valid then
        let r := refineGo cfg env user_request
          ⟨revised_result.story, st.revision_count + 1⟩
        { r with iterations := r.iterations + 1 }
      else ⟨st.story, st.revision_count, .guardrailFailed, 1⟩
    else ⟨st.story, st.revision_count, .budgetExhausted, 1⟩
  else ⟨st.story, st.revision_count, .budgetExhausted, 0⟩
termination_by cfg.max_revision_attempts - st.revision_count

/-- The `final_result` dict (minus the opaque `variety_config`
pass-through). -/
structure FinalResult where
  story : String
  user_request : String
  category : String
  categorization : StoryCategorizer.Categorization
  revision_count : Nat
  judge_score : ℚ
  judge_feedback : String
  validation : PyVal
  is_valid : Bool
  meets_quality_threshold : Bool
  parent_settings : PyVal
  story_id : Option Nat

/-- The `story_data` dict handed to `save_story` (its `.get` defaults
are never taken: every key is present in `final_result`). -/
def toStoryData (r : FinalResult) : StoryStorage.StoryData :=
  { story := r.story, user_request := r.user_request,
    category := r.category,
    categorization := r.categorization.toPyVal,
    judge_score := r.judge_score, judge_feedback := r.judge_feedback,
    revision_count := r.revision_count, is_valid := r.is_valid,
    meets_quality_threshold := r.meets_quality_threshold,
    validation := r.validation, parent_settings := r.parent_settings }

/-- `generate_story_with_judge` (lines 26-118): initial generation with
one safety-focused retry when it fails the guardrails, the refinement
loop when enabled, final validation and evaluation, and persistence.
The final `validate_story` call sits outside any `try`, so a
`TypeError` escaping it propagates to the caller - hence the `Except`
result. -/
def generate_story_with_judge (cfg : Config) (env : OrchEnv)
    (user_request : String) (parent_settings : PyVal)
    (storage : Option StoryStorage.Storage) (hashFn : String → Int)
    (dbOk : Bool) : Except String (FinalResult × Option StoryStorage.Storage) :=
  let result0 := Storyteller.generate_story cfg env.initGen user_request
  let result :=
    if !result0.is_valid then Storyteller.generate_story cfg env.retryGen user_request
    else result0
  let stateAfterLoop :=
    if cfg.enable_iterative_refinement then
      let r := refineGo cfg env user_request ⟨result.story, 0⟩
      (r.story, r.revision_count)
    else (result.story, 0)
  let story := stateAfterLoop.1
  match StoryGuardrails.validate_story cfg env.finalSafetyApi story with
  | .error e => .error e
  | .ok final_validation =>
    let final_evaluation := StoryJudge.evaluate_story
      cfg.minimum_acceptance_score story user_request env.finalJudgeApi
    let final_result : FinalResult :=
      { story := story, user_request := user_request,
        category := result.category, categorization := result.categorization,
        revision_count := stateAfterLoop.2,
        judge_score := final_evaluation.overall_score,
        judge_feedback := final_evaluation.detailed_feedback,
        validation := final_validation.toPyVal,
        is_valid := final_validation.is_valid,
        meets_quality_threshold := final_evaluation.meets_threshold,
        parent_settings := parent_settings, story_id := Option.none }
    match storage with
    | Option.none => .ok (final_result, Option.none)
    | Option.some db =>
      let saved := StoryStorage.save_story db (toStoryData final_result) hashFn dbOk
      if 0 < saved.2 then
        .ok ({ final_result with story_id := Option.some saved.2 }, Option.some saved.1)
      else .ok (final_result, Option.some saved.1)

end StoryOrchestrator

/-! ## Retry with backoff (`utils.py`, `retry_with_backoff`)

The decorator configures `tenacity.retry` with
`stop=stop_after_attempt(max_attempts)`,
`wait=wait_exponential(multiplier=base_delay, min=base_delay,
max=max_delay)`, `retry=retry_if_exception_type((RateLimitError,
APIConnectionError, APITimeoutError))` and `reraise=True`; the inner
wrapper only logs and re-raises, leaving the semantics unchanged.
Tenacity semantics (from its sources): attempt 1 always runs; after a
failed attempt `k`, if the exception is not of a retried type the
exception is re-raised at once; if it is, the call stops and re-raises
it when `k >= max_attempts` (with `reraise=True` the original
exception, not a `RetryError`), and otherwise sleeps
`max(max(0, min), min(multiplier * 2^(k-1), max))` seconds and runs
attempt `k+1`. -/

/-- The exception types of the `openai` client distinguished by the
wrapper. -/
inductive ApiErr where
  | rateLimitError (msg : String)
  | apiConnectionError (msg : String)
  | apiTimeoutError (msg : String)
  | apiError (msg : String)
  | unexpected (msg : String)
  deriving DecidableEq

/-- The transient errors listed in `retry_if_exception_type`. -/
def ApiErr.isTransient : ApiErr → Bool
  | .rateLimitError _ => true
  | .apiConnectionError _ => true
  | .apiTimeoutError _ => true
  | _ => false

/-- `tenacity.wait_exponential(multiplier, max, 2, min)` evaluated at a
given 1-based attempt number. -/
def wait_exponential (multiplier mn mx : ℚ) (attempt_number : Nat) : ℚ :=
  max (max 0 mn) (min (multiplier * 2 ^ (attempt_number - 1)) mx)

/-- Outcome of a retried call: the final result, the 1-based number of
the last attempt actually executed (= the number of invocations when
started at attempt 1), and the list of sleeps between attempts. -/
structure RetryTrace (α : Type) where
  result : Except ApiErr α
  calls : Nat
  waits : List ℚ

/-- The tenacity retry loop from attempt `k` on; `f i` is the outcome
of the i-th invocation of the wrapped function. -/
def retryRun {α : Type} (f : Nat → Except ApiErr α) (max_attempts : Nat)
    (base_delay max_delay : ℚ) (k : Nat) : RetryTrace α :=
  match f k with
  | .ok v => ⟨.ok v, k, []⟩
  | .error e =>
    if h : e.isTransient = true ∧ k < max_attempts then
      let t := retryRun f max_attempts base_delay max_delay (k + 1)
      ⟨t.result, t.calls,
        wait_exponential base_delay base_delay max_delay k :: t.waits⟩
    else ⟨.error e, k, []⟩
termination_by max_attempts - k

/-- A call wrapped by `retry_with_backoff(max_attempts, base_delay,
max_delay)`. -/
def retry_with_backoff {α : Type} (max_attempts : Nat)
    (base_delay max_delay : ℚ) (f : Nat → Except ApiErr α) : RetryTrace α :=
  retryRun f max_attempts base_delay max_delay 1

/-! ## Lemmas about the retry loop -/

theorem retryRun_ok {α : Type} (f : Nat → Except ApiErr α) (maxA : Nat)
    (b m : ℚ) (k : Nat) (v : α) (hfk : f k = .ok v) :
    retryRun f maxA b m k = ⟨.ok v, k, []⟩ := by
  rw [retryRun, hfk]

theorem retryRun_retry {α : Type} (f : Nat → Except ApiErr α) (maxA : Nat)
    (b m : ℚ) (k : Nat) (e : ApiErr) (hfk : f k = .error e)
    (h : e.isTransient = true ∧ k < maxA) :
    retryRun f maxA b m k =
      ⟨(retryRun f maxA b m (k + 1)).result,
       (retryRun f maxA b m (k + 1)).calls,
       wait_exponential b b m k :: (retryRun f maxA b m (k + 1)).waits⟩ := by
  rw [retryRun, hfk]
  simp only [dif_pos h]

theorem retryRun_stop {α : Type} (f : Nat → Except ApiErr α) (maxA : Nat)
    (b m : ℚ) (k : Nat) (e : ApiErr) (hfk : f k = .error e)
    (h : ¬(e.isTransient = true ∧ k < maxA)) :
    retryRun f maxA b m k = ⟨.error e, k, []⟩ := by
  rw [retryRun, hfk]
  simp only [dif_neg h]

theorem retryRun_le_calls {α : Type} (f : Nat → Except ApiErr α)
    (maxA : Nat) (b m : ℚ) (k : Nat) :
    k ≤ (retryRun f maxA b m k).calls := by
  rw [retryRun]
  cases hfk : f k with
  | ok v => exact Nat.le_refl k
  | error e =>
    dsimp only
    split
    · exact Nat.le_trans (Nat.le_succ k) (retryRun_le_calls f maxA b m (k + 1))
    · exact Nat.le_refl k
termination_by maxA - k

theorem retryRun_calls_le {α : Type} (f : Nat → Except ApiErr α)
    (maxA : Nat) (b m : ℚ) (k : Nat) (hk : k ≤ maxA) :
    (retryRun f maxA b m k).calls ≤ maxA := by
  rw [retryRun]
  cases hfk : f k with
  | ok v => exact hk
  | error e =>
    dsimp only
    split
    case isTrue h => exact retryRun_calls_le f maxA b m (k + 1) h.2
    case isFalse h => exact hk
termination_by maxA - k

theorem retryRun_mid_transient {α : Type} (f : Nat → Except ApiErr α)
    (maxA : Nat) (b m : ℚ) (k : Nat) :
    ∀ j, k ≤ j → j < (retryRun f maxA b m k).calls →
      ∃ e, f j = .error e ∧ e.isTransient = true := by
  intro j hkj hj
  rw [retryRun] at hj
  cases hfk : f k with
  | ok v => rw [hfk] at hj; exact absurd hj (by simp; omega)
  | error e =>
    rw [hfk] at hj
    dsimp only at hj
    split at hj
    case isTrue h =>
      rcases Nat.eq_or_lt_of_le hkj with rfl | hlt
      · exact ⟨e, hfk, h.1⟩
      · exact retryRun_mid_transient f maxA b m (k + 1) j hlt hj
    case isFalse h => exact absurd hj (by simp; omega)
termination_by maxA - k

theorem retryRun_error_last {α : Type} (f : Nat → Except ApiErr α)
    (maxA : Nat) (b m : ℚ) (k : Nat) (e : ApiErr)
    (he : (retryRun f maxA b m k).result = .error e) :
    f (retryRun f maxA b m k).calls = .error e := by
  cases hfk : f k with
  | ok v =>
    rw [retryRun_ok f maxA b m k v hfk] at he
    exact absurd he (by simp)
  | error e0 =>
    by_cases h : e0.isTransient = true ∧ k < maxA
    · rw [retryRun_retry f maxA b m k e0 hfk h] at he ⊢
      exact retryRun_error_last f maxA b m (k + 1) e he
    · rw [retryRun_stop f maxA b m k e0 hfk h] at he ⊢
      simp only [Except.error.injEq] at he
      rw [← he]; exact hfk
termination_by maxA - k

theorem retryRun_waits {α : Type} (f : Nat → Except ApiErr α)
    (maxA : Nat) (b m : ℚ) (k : Nat) :
    (retryRun f maxA b m k).waits =
      (List.range ((retryRun f maxA b m k).calls - k)).map
        (fun i => wait_exponential b b m (k + i)) := by
  rw [retryRun]
  cases hfk : f k with
  | ok v => simp
  | error e =>
    dsimp only
    split
    case isTrue h =>
      dsimp only
      have hle := retryRun_le_calls f maxA b m (k + 1)
      have ih := retryRun_waits f maxA b m (k + 1)
      have hsub : (retryRun f maxA b m (k + 1)).calls - k =
          ((retryRun f maxA b m (k + 1)).calls - (k + 1)) + 1 := by omega
      rw [ih, hsub, List.range_succ_eq_map]
      simp only [List.map_cons, List.map_map, Nat.add_zero]
      refine congrArg (_ :: ·) (List.map_congr_left fun i _ => ?_)
      simp only [Function.comp_apply]
      exact congrArg _ (by omega)
    case isFalse h => simp
termination_by maxA - k

/-- C8: a call wrapped by `retry_with_backoff(max_attempts=n)` invokes
the underlying function at most `n` times; every attempt that was
followed by a retry had failed with one of the transient errors
`RateLimitError`, `APIConnectionError`, `APITimeoutError`; the sleep
before retry number `j+1` is the exponential
`max(base, min(base * 2^(j-1), max_delay))`, which is nondecreasing in
`j` (and strictly increasing until the `max_delay` cap); and when the
call ends in an exception - in particular when every attempt failed -
that exception is exactly the one raised by the last attempt,
re-raised unchanged (`reraise=True`). -/
theorem retry_with_backoff_spec {α : Type} (n : Nat) (b m : ℚ)
    (f : Nat → Except ApiErr α) (hn : 1 ≤ n) (hb : 0 ≤ b) :
    (retry_with_backoff n b m f).calls ≤ n ∧
    (∀ j, 1 ≤ j → j < (retry_with_backoff n b m f).calls →
      ∃ e, f j = .error e ∧ e.isTransient = true) ∧
    (∀ e, (retry_with_backoff n b m f).result = .error e →
      f (retry_with_backoff n b m f).calls = .error e) ∧
    (retry_with_backoff n b m f).waits =
      (List.range ((retry_with_backoff n b m f).calls - 1)).map
        (fun i => wait_exponential b b m (1 + i)) ∧
    (∀ j, 1 ≤ j →
      wait_exponential b b m j ≤ wait_exponential b b m (j + 1)) := by
  refine ⟨retryRun_calls_le f n b m 1 hn,
    fun j h1 hj => retryRun_mid_transient f n b m 1 j h1 hj,
    fun e he => retryRun_error_last f n b m 1 e he,
    retryRun_waits f n b m 1, fun j hj => ?_⟩
  unfold wait_exponential
  have hpow : (2 : ℚ) ^ (j - 1) ≤ 2 ^ (j + 1 - 1) := by
    apply pow_le_pow_right₀ (by norm_num)
    omega
  exact max_le_max (le_refl _)
    (min_le_min (by nlinarith) (le_refl _))

/-- A concrete wrapped call that fails with a rate limit on every
attempt, used to witness `retry_with_backoff_spec`. -/
def alwaysRateLimited : Nat → Except ApiErr Nat :=
  fun _ => .error (.rateLimitError "rate limited")

/-- Witness for C8 at a concrete always-failing transient call with the
configuration `retry_with_backoff(max_attempts=3, base_delay=2.0,
max_delay=60.0)` used for the judge API. -/
theorem retry_with_backoff_spec_witness :
    (1 ≤ 3 ∧ (0:ℚ) ≤ 2) ∧
    ((retry_with_backoff 3 2 60 alwaysRateLimited).calls ≤ 3 ∧
     (∀ j, 1 ≤ j → j < (retry_with_backoff 3 2 60 alwaysRateLimited).calls →
       ∃ e, alwaysRateLimited j = .error e ∧ e.isTransient = true) ∧
     (∀ e, (retry_with_backoff 3 2 60 alwaysRateLimited).result = .error e →
       alwaysRateLimited (retry_with_backoff 3 2 60 alwaysRateLimited).calls = .error e) ∧
     (retry_with_backoff 3 2 60 alwaysRateLimited).waits =
       (List.range ((retry_with_backoff 3 2 60 alwaysRateLimited).calls - 1)).map
         (fun i => wait_exponential 2 2 60 (1 + i)) ∧
     (∀ j, 1 ≤ j →
       wait_exponential 2 2 60 j ≤ wait_exponential 2 2 60 (j + 1))) :=
  ⟨⟨by decide, by norm_num⟩,
    retry_with_backoff_spec 3 2 60 alwaysRateLimited (by decide) (by norm_num)⟩

/-! ## Lemmas about storage -/

theorem find?_append_singleton {α : Type} (l : List α) (a : α) (p : α → Bool)
    (h : ∀ x ∈ l, p x = false) :
    (l ++ [a]).find? p = if p a then Option.some a else Option.none := by
  induction l with
  | nil => cases hpa : p a <;> simp [List.find?, hpa]
  | cons x xs ih =>
    simp only [List.cons_append, List.find?]
    rw [h x (List.mem_cons_self x xs)]
    exact ih fun y hy => h y (List.mem_cons_of_mem x hy)

/-- C5: a record saved through `save_story` with a positive returned id
is read back by `get_story` with every field - story text, request,
category, categorization blob, judge score and feedback, revision
count, both flags, validation blob and parent settings - equal to what
was saved. -/
theorem save_story_get_story_roundtrip (db : StoryStorage.Storage)
    (d : StoryStorage.StoryData) (hashFn : String → Int) (hwf : db.Wf) :
    0 < (StoryStorage.save_story db d hashFn true).2 ∧
    (StoryStorage.get_story (StoryStorage.save_story db d hashFn true).1
        (StoryStorage.save_story db d hashFn true).2).1 =
      Option.some
        { id := db.next_id, story := d.story,
          user_request := d.user_request, category := d.category,
          categorization := d.categorization, judge_score := d.judge_score,
          judge_feedback := d.judge_feedback,
          revision_count := d.revision_count, is_valid := d.is_valid,
          meets_quality_threshold := d.meets_quality_threshold,
          validation := d.validation, parent_settings := d.parent_settings,
          created_at := db.clock } := by
  have hid : (StoryStorage.save_story db d hashFn true).2 = db.next_id := rfl
  constructor
  · rw [hid]; exact hwf.1
  · have hnone : ∀ x ∈ db.rows, (x.id == db.next_id) = false := by
      intro x hx
      have hlt := hwf.2 x hx
      exact beq_eq_false_iff_ne.mpr (Nat.ne_of_lt hlt)
    rw [hid]
    show ((db.rows ++ [_]).find?
      (fun r : StoryStorage.StoryRow => r.id == db.next_id)).map
      StoryStorage.row_to_dict = _
    rw [find?_append_singleton _ _ _ hnone]
    simp only [beq_self_eq_true, if_pos, Option.map_some']
    unfold StoryStorage.row_to_dict
    cases hv : d.is_valid <;> cases hm : d.meets_quality_threshold <;>
      simp [hv, hm]

/-- A simple concrete well-formed empty database and record for the C5
witness. -/
def emptyDb : StoryStorage.Storage := { rows := [], next_id := 1, clock := 0 }

def sampleStoryData : StoryStorage.StoryData :=
  { story := "Once upon a time.", user_request := "a story",
    category := "default", categorization := .dict [("category", .str "default")],
    judge_score := 8, judge_feedback := "ok", revision_count := 1,
    is_valid := true, meets_quality_threshold := true,
    validation := .dict [("is_valid", .bool true)],
    parent_settings := .dict [] }

/-- Witness for C5 at a concrete empty database. -/
theorem save_story_get_story_roundtrip_witness :
    emptyDb.Wf ∧
    (0 < (StoryStorage.save_story emptyDb sampleStoryData (fun _ => 7) true).2 ∧
     (StoryStorage.get_story (StoryStorage.save_story emptyDb sampleStoryData (fun _ => 7) true).1
         (StoryStorage.save_story emptyDb sampleStoryData (fun _ => 7) true).2).1 =
       Option.some
         { id := emptyDb.next_id, story := sampleStoryData.story,
           user_request := sampleStoryData.user_request,
           category := sampleStoryData.category,
           categorization := sampleStoryData.categorization,
           judge_score := sampleStoryData.judge_score,
           judge_feedback := sampleStoryData.judge_feedback,
           revision_count := sampleStoryData.revision_count,
           is_valid := sampleStoryData.is_valid,
           meets_quality_threshold := sampleStoryData.meets_quality_threshold,
           validation := sampleStoryData.validation,
           parent_settings := sampleStoryData.parent_settings,
           created_at := emptyDb.clock }) :=
  ⟨⟨by decide, by simp [emptyDb]⟩,
    save_story_get_story_roundtrip emptyDb sampleStoryData (fun _ => 7)
      ⟨by decide, by simp [emptyDb]⟩⟩

/-- C7: records are immutable once written, except for deletion.  The
read operations (`get_story`, `get_all_stories`, `search_stories`,
`filter_stories`, `get_statistics`) leave the database unchanged;
`delete_story` only removes the rows with the given id and keeps every
other row byte-for-byte (each surviving row was already present);
`save_story` appends and preserves every existing row. -/
theorem storage_records_immutable (db : StoryStorage.Storage)
    (story_id : Nat) (limit : Option Nat) (offset : Nat) (query : String)
    (lim1 lim2 : Nat) (category : Option String) (mn mx : Option ℚ)
    (d : StoryStorage.StoryData) (hashFn : String → Int) (dbOk : Bool) :
    (StoryStorage.get_story db story_id).2 = db ∧
    (StoryStorage.get_all_stories db limit offset).2 = db ∧
    (StoryStorage.search_stories db query lim1).2 = db ∧
    (StoryStorage.filter_stories db category mn mx lim2).2 = db ∧
    (StoryStorage.get_statistics db).2 = db ∧
    (StoryStorage.delete_story db story_id).2.rows =
      db.rows.filter (fun r => r.id != story_id) ∧
    (∀ r ∈ (StoryStorage.delete_story db story_id).2.rows, r ∈ db.rows) ∧
    (∀ r ∈ db.rows, r ∈ (StoryStorage.save_story db d hashFn dbOk).1.rows) := by
  refine ⟨rfl, rfl, rfl, rfl, rfl, rfl, ?_, ?_⟩
  · intro r hr
    exact List.mem_of_mem_filter hr
  · intro r hr
    cases dbOk with
    | false => exact hr
    | true => exact List.mem_append_left _ hr

/-! ## Lemmas about the judge -/

theorem evalParse_verdict (ms : ℚ) (raw : String) (data : PyVal)
    (r : StoryJudge.EvalResult) (h : StoryJudge.evalParse ms raw data = .ok r) :
    r.verdict = "ACCEPT" ∨ r.verdict = "REVISE" := by
  unfold StoryJudge.evalParse at h
  repeat' split at h
  all_goals first
    | exact Except.noConfusion h
    | (dsimp only at h
       simp only [Except.ok.injEq] at h
       subst h
       dsimp only
       try (split <;> simp)
       try simp
       try tauto)

theorem evalParse_meets (ms : ℚ) (raw : String) (data : PyVal)
    (r : StoryJudge.EvalResult) (h : StoryJudge.evalParse ms raw data = .ok r) :
    r.meets_threshold = decide (ms ≤ r.overall_score) ∧ r.error = Option.none := by
  unfold StoryJudge.evalParse at h
  repeat' split at h
  all_goals first
    | exact Except.noConfusion h
    | (dsimp only at h
       simp only [Except.ok.injEq] at h
       subst h
       exact ⟨rfl, rfl⟩)

/-- C9: for an empty or whitespace-only story, `evaluate_story` returns
the fixed error dict - verdict `"ERROR"`, overall score `0.0`,
`meets_threshold = False` and an `error` field - and, since the result
is the same for every oracle value `api`, without making any external
API call. -/
theorem evaluate_story_empty_story (min_score : ℚ) (story u : String)
    (api : Except String (String × PyVal))
    (h : story = "" ∨ pyStrip story = "") :
    StoryJudge.evaluate_story min_score story u api =
      StoryJudge.emptyStoryResult ∧
    StoryJudge.emptyStoryResult.verdict = "ERROR" ∧
    StoryJudge.emptyStoryResult.overall_score = 0 ∧
    StoryJudge.emptyStoryResult.meets_threshold = false ∧
    StoryJudge.emptyStoryResult.error = Option.some "Empty story" := by
  refine ⟨?_, rfl, rfl, rfl, rfl⟩
  unfold StoryJudge.evaluate_story
  rw [if_pos h]

/-- Witness for C9 at a whitespace-only story and an arbitrary oracle. -/
theorem evaluate_story_empty_story_witness :
    (" \n\t " = "" ∨ pyStrip " \n\t " = "") ∧
    StoryJudge.evaluate_story 7 " \n\t " "req" (.error "unused") =
      StoryJudge.emptyStoryResult :=
  ⟨Or.inr (by decide),
   (evaluate_story_empty_story 7 " \n\t " "req" (.error "unused")
     (Or.inr (by decide))).1⟩

/-! ## Lemmas about the categorizer -/

theorem parseLine_category_mem (st : StoryCategorizer.Categorization)
    (line : String) (h : st.category ∈ StoryCategorizer.categories) :
    (StoryCategorizer.parseLine st line).category ∈ StoryCategorizer.categories := by
  unfold StoryCategorizer.parseLine
  dsimp only
  split_ifs <;> first | exact h | assumption

theorem foldl_parseLine_category_mem (lines : List String)
    (st : StoryCategorizer.Categorization)
    (h : st.category ∈ StoryCategorizer.categories) :
    (lines.foldl StoryCategorizer.parseLine st).category ∈
      StoryCategorizer.categories := by
  induction lines generalizing st with
  | nil => exact h
  | cons l ls ih =>
    exact ih (StoryCategorizer.parseLine st l) (parseLine_category_mem st l h)

theorem fallback_categorize_category_mem (u : String) :
    (StoryCategorizer.fallback_categorize u).category ∈
      StoryCategorizer.categories := by
  unfold StoryCategorizer.fallback_categorize
  dsimp only
  split_ifs <;> simp [StoryCategorizer.categories]

/-- Value of `evalParse` on the fallback dict `{}` delivered by
`safe_parse_json` for an unparseable response. -/
theorem evalParse_empty_dict (ms : ℚ) (raw : String) :
    StoryJudge.evalParse ms raw (.dict []) = .ok
      { verdict := if ("REVISE" : String) = "ACCEPT" ∨ ms ≤ (0 : ℚ)
          then "ACCEPT" else "REVISE",
        overall_score := 0,
        detailed_feedback := "SCORES:\n" ++ String.intercalate "\n" [] ++
          "\n\nOverall Score: " ++ pyStr (.float 0) ++
          "/10\n\nFEEDBACK:\nWhat Works Well: " ++ pyStr (.str "N/A") ++
          "\n\nSuggestions for Improvement: " ++ pyStr (.str "N/A") ++
          "\n\nVERDICT: " ++
          (if ("REVISE" : String) = "ACCEPT" ∨ ms ≤ (0 : ℚ)
            then "ACCEPT" else "REVISE") ++ "\n",
        meets_threshold := decide (ms ≤ (0 : ℚ)),
        scores := Option.some (.dict []),
        raw_response := Option.some raw, error := Option.none } := rfl

/-- C4: whatever the external responses are - malformed ones included -
the categorizer returns one of the five known category labels (and on a
failed call it returns exactly the keyword fallback categorization,
applied - as in the source, which rebinds the request to
`sanitize_text(user_request, 5000)` inside the `try` before the call -
to the sanitized request), and the judge returns a well-formed
evaluation without raising: its verdict is always one of
`ACCEPT`/`REVISE`/`ERROR`, and on the `{}` fallback parse of an
unparseable response the defaults apply - the verdict defaults to
`REVISE` (for a positive acceptance threshold) and the overall score
to `0.0`. -/
theorem external_responses_safe_defaults :
    (∀ api u, (StoryCategorizer.categorize_and_extract api u).category ∈
      StoryCategorizer.categories) ∧
    (∀ e u, StoryCategorizer.categorize_and_extract (.error e) u =
      StoryCategorizer.fallback_categorize (sanitize_text u 5000)) ∧
    (∀ ms s u api, (StoryJudge.evaluate_story ms s u api).verdict = "ACCEPT" ∨
      (StoryJudge.evaluate_story ms s u api).verdict = "REVISE" ∨
      (StoryJudge.evaluate_story ms s u api).verdict = "ERROR") ∧
    (∀ ms s u raw, ¬(s = "" ∨ pyStrip s = "") → 0 < ms →
      (StoryJudge.evaluate_story ms s u (.ok (raw, .dict []))).verdict = "REVISE" ∧
      (StoryJudge.evaluate_story ms s u (.ok (raw, .dict []))).overall_score = 0 ∧
      (StoryJudge.evaluate_story ms s u (.ok (raw, .dict []))).meets_threshold = false) := by
  refine ⟨?_, ?_, ?_, ?_⟩
  · intro api u
    cases api with
    | error e => exact fallback_categorize_category_mem (sanitize_text u 5000)
    | ok analysis =>
      show (StoryCategorizer.Categorization.category _) ∈ _
      unfold StoryCategorizer.categorize_and_extract
      dsimp only
      exact foldl_parseLine_category_mem _ _ (by simp [StoryCategorizer.categories])
  · intro e u
    rfl
  · intro ms s u api
    unfold StoryJudge.evaluate_story
    split
    · exact Or.inr (Or.inr rfl)
    · cases api with
      | error e => exact Or.inr (Or.inr rfl)
      | ok p =>
        dsimp only
        cases hp : StoryJudge.evalParse ms p.1 p.2 with
        | ok r0 => exact (evalParse_verdict ms p.1 p.2 r0 hp).imp id Or.inl
        | error e => exact Or.inr (Or.inr rfl)
  · intro ms s u raw hne hms
    have hnot : ¬(("REVISE" : String) = "ACCEPT" ∨ ms ≤ (0 : ℚ)) := by
      rintro (hc | hc)
      · exact absurd hc (by decide)
      · exact absurd hms (not_lt.mpr hc)
    unfold StoryJudge.evaluate_story
    rw [if_neg hne]
    dsimp only
    rw [evalParse_empty_dict ms raw]
    refine ⟨?_, rfl, ?_⟩
    · show (if ("REVISE" : String) = "ACCEPT" ∨ ms ≤ (0 : ℚ)
        then "ACCEPT" else "REVISE") = "REVISE"
      rw [if_neg hnot]
    · show decide (ms ≤ (0 : ℚ)) = false
      exact decide_eq_false fun hc => absurd hms (not_lt.mpr hc)

/-- Witness for C4 at a concrete story and threshold. -/
theorem external_responses_safe_defaults_witness :
    (¬(("a story" : String) = "" ∨ pyStrip "a story" = "") ∧ (0 : ℚ) < 7) ∧
    ((StoryJudge.evaluate_story 7 "a story" "req" (.ok ("garbage", .dict []))).verdict = "REVISE" ∧
     (StoryJudge.evaluate_story 7 "a story" "req" (.ok ("garbage", .dict []))).overall_score = 0 ∧
     (StoryJudge.evaluate_story 7 "a story" "req" (.ok ("garbage", .dict []))).meets_threshold = false) ∧
    (StoryCategorizer.categorize_and_extract (.error "boom") "a dragon story").category ∈
      StoryCategorizer.categories ∧
    StoryCategorizer.categorize_and_extract (.error "boom") "a dragon story" =
      StoryCategorizer.fallback_categorize (sanitize_text "a dragon story" 5000) :=
  ⟨⟨by decide, by norm_num⟩,
   external_responses_safe_defaults.2.2.2 7 "a story" "req" "garbage"
     (by decide) (by norm_num),
   external_responses_safe_defaults.1 (.error "boom") "a dragon story",
   external_responses_safe_defaults.2.1 "boom" "a dragon story"⟩

/-! ## Lemmas about the refinement loop -/

namespace StoryOrchestrator

/-- The judge evaluation performed by the loop iteration whose
`revision_count` is `rc` on draft `story`. -/
def evalOf (cfg : Config) (env : OrchEnv) (u : String) (story : String)
    (rc : Nat) : StoryJudge.EvalResult :=
  StoryJudge.evaluate_story cfg.minimum_acceptance_score story u (env.judgeApi rc)

/-- The revision generated by the loop iteration whose `revision_count`
is `rc`. -/
def revisedOf (cfg : Config) (env : OrchEnv) (u : String) (rc : Nat) :
    Storyteller.GenResult :=
  Storyteller.generate_story cfg (env.reviseGen rc) u

theorem refineGo_not_lt (cfg : Config) (env : OrchEnv) (u : String)
    (st : LoopState) (h : ¬ st.revision_count < cfg.max_revision_attempts) :
    refineGo cfg env u st =
      ⟨st.story, st.revision_count, .budgetExhausted, 0⟩ := by
  rw [refineGo, dif_neg h]

theorem refineGo_meets (cfg : Config) (env : OrchEnv) (u : String)
    (st : LoopState) (h : st.revision_count < cfg.max_revision_attempts)
    (hm : (evalOf cfg env u st.story st.revision_count).meets_threshold = true) :
    refineGo cfg env u st = ⟨st.story, st.revision_count, .approved, 1⟩ := by
  unfold evalOf at hm
  rw [refineGo, dif_pos h]
  dsimp only
  rw [hm]
  simp

theorem refineGo_step (cfg : Config) (env : OrchEnv) (u : String)
    (st : LoopState) (h : st.revision_count < cfg.max_revision_attempts)
    (hm : (evalOf cfg env u st.story st.revision_count).meets_threshold = false)
    (h2 : st.revision_count < cfg.max_revision_attempts - 1)
    (hv : (revisedOf cfg env u st.revision_count).is_valid = true) :
    refineGo cfg env u st =
      ⟨(refineGo cfg env u ⟨(revisedOf cfg env u st.revision_count).story,
          st.revision_count + 1⟩).story,
       (refineGo cfg env u ⟨(revisedOf cfg env u st.revision_count).story,
          st.revision_count + 1⟩).revision_count,
       (refineGo cfg env u ⟨(revisedOf cfg env u st.revision_count).story,
          st.revision_count + 1⟩).reason,
       (refineGo cfg env u ⟨(revisedOf cfg env u st.revision_count).story,
          st.revision_count + 1⟩).iterations + 1⟩ := by
  unfold evalOf at hm
  unfold revisedOf at hv ⊢
  rw [refineGo, dif_pos h]
  dsimp only
  rw [hm]
  simp only [Bool.false_eq_true, if_false]
  rw [if_pos h2, hv]
  simp

theorem refineGo_guardrail (cfg : Config) (env : OrchEnv) (u : String)
    (st : LoopState) (h : st.revision_count < cfg.max_revision_attempts)
    (hm : (evalOf cfg env u st.story st.revision_count).meets_threshold = false)
    (h2 : st.revision_count < cfg.max_revision_attempts - 1)
    (hv : (revisedOf cfg env u st.revision_count).is_valid = false) :
    refineGo cfg env u st =
      ⟨st.story, st.revision_count, .guardrailFailed, 1⟩ := by
  unfold evalOf at hm
  unfold revisedOf at hv
  rw [refineGo, dif_pos h]
  dsimp only
  rw [hm]
  simp only [Bool.false_eq_true, if_false]
  rw [if_pos h2, hv]
  simp

theorem refineGo_nobudget (cfg : Config) (env : OrchEnv) (u : String)
    (st : LoopState) (h : st.revision_count < cfg.max_revision_attempts)
    (hm : (evalOf cfg env u st.story st.revision_count).meets_threshold = false)
    (h2 : ¬ st.revision_count < cfg.max_revision_attempts - 1) :
    refineGo cfg env u st =
      ⟨st.story, st.revision_count, .budgetExhausted, 1⟩ := by
  unfold evalOf at hm
  rw [refineGo, dif_pos h]
  dsimp only
  rw [hm]
  simp only [Bool.false_eq_true, if_false]
  rw [if_neg h2]

end StoryOrchestrator

namespace StoryOrchestrator

theorem refineGo_revision_count_le (cfg : Config) (env : OrchEnv)
    (u : String) (st : LoopState)
    (h : st.revision_count ≤ cfg.max_revision_attempts) :
    (refineGo cfg env u st).revision_count ≤ cfg.max_revision_attempts := by
  by_cases hlt : st.revision_count < cfg.max_revision_attempts
  · by_cases hm : (evalOf cfg env u st.story st.revision_count).meets_threshold = true
    · rw [refineGo_meets cfg env u st hlt hm]; dsimp only; exact h
    · rw [Bool.not_eq_true] at hm
      by_cases h2 : st.revision_count < cfg.max_revision_attempts - 1
      · by_cases hv : (revisedOf cfg env u st.revision_count).is_valid = true
        · rw [refineGo_step cfg env u st hlt hm h2 hv]
          dsimp only
          exact refineGo_revision_count_le cfg env u
            ⟨(revisedOf cfg env u st.revision_count).story,
              st.revision_count + 1⟩ (by dsimp only; omega)
        · rw [Bool.not_eq_true] at hv
          rw [refineGo_guardrail cfg env u st hlt hm h2 hv]
          dsimp only; exact h
      · rw [refineGo_nobudget cfg env u st hlt hm h2]
        dsimp only; exact h
  · rw [refineGo_not_lt cfg env u st hlt]
    dsimp only; exact h
termination_by cfg.max_revision_attempts - st.revision_count
decreasing_by simp_wf; omega

theorem refineGo_le_revision_count (cfg : Config) (env : OrchEnv)
    (u : String) (st : LoopState) :
    st.revision_count ≤ (refineGo cfg env u st).revision_count := by
  by_cases hlt : st.revision_count < cfg.max_revision_attempts
  · by_cases hm : (evalOf cfg env u st.story st.revision_count).meets_threshold = true
    · rw [refineGo_meets cfg env u st hlt hm]
    · rw [Bool.not_eq_true] at hm
      by_cases h2 : st.revision_count < cfg.max_revision_attempts - 1
      · by_cases hv : (revisedOf cfg env u st.revision_count).is_valid = true
        · rw [refineGo_step cfg env u st hlt hm h2 hv]
          have hrec := refineGo_le_revision_count cfg env u
            ⟨(revisedOf cfg env u st.revision_count).story,
              st.revision_count + 1⟩
          dsimp only at hrec ⊢
          omega
        · rw [Bool.not_eq_true] at hv
          rw [refineGo_guardrail cfg env u st hlt hm h2 hv]
      · rw [refineGo_nobudget cfg env u st hlt hm h2]
  · rw [refineGo_not_lt cfg env u st hlt]
termination_by cfg.max_revision_attempts - st.revision_count
decreasing_by simp_wf; omega

theorem refineGo_rc_lt (cfg : Config) (env : OrchEnv) (u : String)
    (st : LoopState) (h : st.revision_count < cfg.max_revision_attempts) :
    (refineGo cfg env u st).revision_count < cfg.max_revision_attempts := by
  by_cases hm : (evalOf cfg env u st.story st.revision_count).meets_threshold = true
  · rw [refineGo_meets cfg env u st h hm]; dsimp only; exact h
  · rw [Bool.not_eq_true] at hm
    by_cases h2 : st.revision_count < cfg.max_revision_attempts - 1
    · by_cases hv : (revisedOf cfg env u st.revision_count).is_valid = true
      · rw [refineGo_step cfg env u st h hm h2 hv]
        dsimp only
        exact refineGo_rc_lt cfg env u
          ⟨(revisedOf cfg env u st.revision_count).story,
            st.revision_count + 1⟩ (by dsimp only; omega)
      · rw [Bool.not_eq_true] at hv
        rw [refineGo_guardrail cfg env u st h hm h2 hv]; dsimp only; exact h
    · rw [refineGo_nobudget cfg env u st h hm h2]; dsimp only; exact h
termination_by cfg.max_revision_attempts - st.revision_count
decreasing_by simp_wf; omega

theorem refineGo_iterations_le (cfg : Config) (env : OrchEnv) (u : String)
    (st : LoopState) :
    (refineGo cfg env u st).iterations ≤
      cfg.max_revision_attempts - st.revision_count := by
  by_cases hlt : st.revision_count < cfg.max_revision_attempts
  · by_cases hm : (evalOf cfg env u st.story st.revision_count).meets_threshold = true
    · rw [refineGo_meets cfg env u st hlt hm]; dsimp only; omega
    · rw [Bool.not_eq_true] at hm
      by_cases h2 : st.revision_count < cfg.max_revision_attempts - 1
      · by_cases hv : (revisedOf cfg env u st.revision_count).is_valid = true
        · rw [refineGo_step cfg env u st hlt hm h2 hv]
          have hrec := refineGo_iterations_le cfg env u
            ⟨(revisedOf cfg env u st.revision_count).story,
              st.revision_count + 1⟩
          dsimp only at hrec ⊢
          omega
        · rw [Bool.not_eq_true] at hv
          rw [refineGo_guardrail cfg env u st hlt hm h2 hv]
          dsimp only; omega
      · rw [refineGo_nobudget cfg env u st hlt hm h2]
        dsimp only; omega
  · rw [refineGo_not_lt cfg env u st hlt]
    dsimp only; omega
termination_by cfg.max_revision_attempts - st.revision_count
decreasing_by simp_wf; omega

theorem refineGo_iterations_eq (cfg : Config) (env : OrchEnv) (u : String)
    (st : LoopState) :
    (refineGo cfg env u st).iterations =
        (refineGo cfg env u st).revision_count - st.revision_count ∨
      (refineGo cfg env u st).iterations =
        (refineGo cfg env u st).revision_count - st.revision_count + 1 := by
  by_cases hlt : st.revision_count < cfg.max_revision_attempts
  · by_cases hm : (evalOf cfg env u st.story st.revision_count).meets_threshold = true
    · rw [refineGo_meets cfg env u st hlt hm]; dsimp only; right; omega
    · rw [Bool.not_eq_true] at hm
      by_cases h2 : st.revision_count < cfg.max_revision_attempts - 1
      · by_cases hv : (revisedOf cfg env u st.revision_count).is_valid = true
        · rw [refineGo_step cfg env u st hlt hm h2 hv]
          have hih := refineGo_iterations_eq cfg env u
            ⟨(revisedOf cfg env u st.revision_count).story,
              st.revision_count + 1⟩
          have hge := refineGo_le_revision_count cfg env u
            ⟨(revisedOf cfg env u st.revision_count).story,
              st.revision_count + 1⟩
          dsimp only at hih hge ⊢
          omega
        · rw [Bool.not_eq_true] at hv
          rw [refineGo_guardrail cfg env u st hlt hm h2 hv]
          dsimp only; right; omega
      · rw [refineGo_nobudget cfg env u st hlt hm h2]
        dsimp only; right; omega
  · rw [refineGo_not_lt cfg env u st hlt]; dsimp only; left; omega
termination_by cfg.max_revision_attempts - st.revision_count
decreasing_by simp_wf; omega

theorem refineGo_exit_char (cfg : Config) (env : OrchEnv) (u : String)
    (st : LoopState) :
    ((refineGo cfg env u st).reason = .approved →
      (evalOf cfg env u (refineGo cfg env u st).story
        (refineGo cfg env u st).revision_count).meets_threshold = true) ∧
    ((refineGo cfg env u st).reason = .guardrailFailed →
      (evalOf cfg env u (refineGo cfg env u st).story
        (refineGo cfg env u st).revision_count).meets_threshold = false ∧
      (refineGo cfg env u st).revision_count < cfg.max_revision_attempts - 1 ∧
      (revisedOf cfg env u (refineGo cfg env u st).revision_count).is_valid = false) ∧
    ((refineGo cfg env u st).reason = .budgetExhausted →
      cfg.max_revision_attempts ≤ (refineGo cfg env u st).revision_count ∨
      ((evalOf cfg env u (refineGo cfg env u st).story
          (refineGo cfg env u st).revision_count).meets_threshold = false ∧
        ¬ (refineGo cfg env u st).revision_count < cfg.max_revision_attempts - 1)) := by
  by_cases hlt : st.revision_count < cfg.max_revision_attempts
  · by_cases hm : (evalOf cfg env u st.story st.revision_count).meets_threshold = true
    · rw [refineGo_meets cfg env u st hlt hm]
      exact ⟨fun _ => hm, fun hr => by simp at hr,
        fun hr => by simp at hr⟩
    · rw [Bool.not_eq_true] at hm
      by_cases h2 : st.revision_count < cfg.max_revision_attempts - 1
      · by_cases hv : (revisedOf cfg env u st.revision_count).is_valid = true
        · rw [refineGo_step cfg env u st hlt hm h2 hv]
          exact refineGo_exit_char cfg env u
            ⟨(revisedOf cfg env u st.revision_count).story,
              st.revision_count + 1⟩
        · rw [Bool.not_eq_true] at hv
          rw [refineGo_guardrail cfg env u st hlt hm h2 hv]
          exact ⟨fun hr => by simp at hr,
            fun _ => ⟨hm, h2, hv⟩, fun hr => by simp at hr⟩
      · rw [refineGo_nobudget cfg env u st hlt hm h2]
        exact ⟨fun hr => by simp at hr,
          fun hr => by simp at hr, fun _ => Or.inr ⟨hm, h2⟩⟩
  · rw [refineGo_not_lt cfg env u st hlt]
    exact ⟨fun hr => by simp at hr,
      fun hr => by simp at hr, fun _ => Or.inl (by dsimp only; omega)⟩
termination_by cfg.max_revision_attempts - st.revision_count
decreasing_by simp_wf; omega

theorem refineGo_approved_iff (cfg : Config) (env : OrchEnv) (u : String)
    (st : LoopState) (hlt : st.revision_count < cfg.max_revision_attempts) :
    (refineGo cfg env u st).reason = .approved ↔
      (evalOf cfg env u (refineGo cfg env u st).story
        (refineGo cfg env u st).revision_count).meets_threshold = true := by
  constructor
  · exact (refineGo_exit_char cfg env u st).1
  · intro hm
    cases hreason : (refineGo cfg env u st).reason with
    | approved => rfl
    | guardrailFailed =>
      have hf := ((refineGo_exit_char cfg env u st).2.1 hreason).1
      rw [hm] at hf
      exact absurd hf (by decide)
    | budgetExhausted =>
      rcases (refineGo_exit_char cfg env u st).2.2 hreason with hge | ⟨hf, _⟩
      · exact absurd hge (Nat.not_le.mpr (refineGo_rc_lt cfg env u st hlt))
      · rw [hm] at hf
        exact absurd hf (by decide)

end StoryOrchestrator

/-! ## Claim theorems about the loop and the storyteller -/

/-- Projection used to state the revision-count bound without
hypotheses: the `revision_count` of a successful run, `0` for a run
that propagated an exception. -/
def resultRevisionCount :
    Except String (StoryOrchestrator.FinalResult × Option StoryStorage.Storage) → Nat
  | .ok (r, _) => r.revision_count
  | .error _ => 0

/-- C1: `generate_story_with_judge` always terminates (it is a total
function of its oracles); the refinement loop body runs at most
`max_revision_attempts - revision_count` times from any state, hence at
most `max_revision_attempts` times from the initial state; and the
`revision_count` field of the returned result never exceeds the
configured `max_revision_attempts`. -/
theorem revision_loop_bounded (cfg : Config) (env : StoryOrchestrator.OrchEnv)
    (u : String) (ps : PyVal) (storage : Option StoryStorage.Storage)
    (hashFn : String → Int) (dbOk : Bool) (st : StoryOrchestrator.LoopState) :
    resultRevisionCount
      (StoryOrchestrator.generate_story_with_judge cfg env u ps storage hashFn dbOk) ≤
      cfg.max_revision_attempts ∧
    (StoryOrchestrator.refineGo cfg env u st).iterations ≤
      cfg.max_revision_attempts - st.revision_count := by
  refine ⟨?_, StoryOrchestrator.refineGo_iterations_le cfg env u st⟩
  unfold StoryOrchestrator.generate_story_with_judge
  dsimp only
  repeat' split
  all_goals first
    | exact Nat.zero_le _
    | (unfold resultRevisionCount
       dsimp only
       exact StoryOrchestrator.refineGo_revision_count_le cfg env u _ (by simp))

/-- C2: when the revised draft of an iteration fails the guardrail
check, the loop stops with reason `guardrailFailed`, the draft in the
result is the one held before the revision attempt, and
`revision_count` is not incremented.  Quantifying over the entry state
covers every iteration, each being the first of its own suffix run. -/
theorem failed_revision_retains_previous_draft (cfg : Config)
    (env : StoryOrchestrator.OrchEnv) (u : String)
    (st : StoryOrchestrator.LoopState)
    (h1 : st.revision_count < cfg.max_revision_attempts)
    (h2 : (StoryJudge.evaluate_story cfg.minimum_acceptance_score st.story u
      (env.judgeApi st.revision_count)).meets_threshold = false)
    (h3 : st.revision_count < cfg.max_revision_attempts - 1)
    (h4 : (Storyteller.generate_story cfg (env.reviseGen st.revision_count) u).is_valid = false) :
    (StoryOrchestrator.refineGo cfg env u st).story = st.story ∧
    (StoryOrchestrator.refineGo cfg env u st).revision_count = st.revision_count ∧
    (StoryOrchestrator.refineGo cfg env u st).reason =
      StoryOrchestrator.ExitReason.guardrailFailed := by
  rw [StoryOrchestrator.refineGo_guardrail cfg env u st h1 h2 h3 h4]
  exact ⟨rfl, rfl, rfl⟩

/-- The configuration used for the concrete witnesses: refinement
enabled, a budget of 2 revisions and a minimum acceptance score of 7. -/
def cfgW : Config :=
  { enable_iterative_refinement := true, max_revision_attempts := 2,
    minimum_acceptance_score := 7, enable_categorization := true,
    enable_content_filter := true, enable_age_check := true }

/-- A generation environment whose story API call raises. -/
def genEnvFail : Storyteller.GenEnv :=
  { catApi := .error "categorizer down", storyApi := .error "api down",
    safetyApi := .error "safety down" }

/-- A judge response whose overall score 3 is below the threshold 7. -/
def lowScoreResp : Except String (String × PyVal) :=
  .ok ("resp", .dict [("scores", .dict [("overall", .int 3)])])

/-- An orchestration environment where every judge call scores 3 and
every revision attempt fails its API call (hence fails guardrails). -/
def envW : StoryOrchestrator.OrchEnv :=
  { initGen := genEnvFail, retryGen := genEnvFail,
    reviseGen := fun _ => genEnvFail,
    judgeApi := fun _ => lowScoreResp,
    finalJudgeApi := .error "down", finalSafetyApi := .error "down" }

def stW : StoryOrchestrator.LoopState := ⟨"a tale", 0⟩

/-- Witness for C2: with a draft scored below threshold and a revision
that fails the guardrails, the loop keeps the previous draft. -/
theorem failed_revision_retains_previous_draft_witness :
    (stW.revision_count < cfgW.max_revision_attempts ∧
     (StoryJudge.evaluate_story cfgW.minimum_acceptance_score stW.story "u"
       (envW.judgeApi stW.revision_count)).meets_threshold = false ∧
     stW.revision_count < cfgW.max_revision_attempts - 1 ∧
     (Storyteller.generate_story cfgW (envW.reviseGen stW.revision_count) "u").is_valid = false) ∧
    ((StoryOrchestrator.refineGo cfgW envW "u" stW).story = stW.story ∧
     (StoryOrchestrator.refineGo cfgW envW "u" stW).revision_count = stW.revision_count ∧
     (StoryOrchestrator.refineGo cfgW envW "u" stW).reason =
       StoryOrchestrator.ExitReason.guardrailFailed) :=
  ⟨⟨by decide, by decide, by decide, by decide⟩,
   failed_revision_retains_previous_draft cfgW envW "u" stW
     (by decide) (by decide) (by decide) (by decide)⟩

/-- C3: the refinement loop exits only through one of its three
conditions - the evaluator accepted (`approved`, exactly when the exit
evaluation meets the threshold), a revised draft failed the safety
checker (`guardrailFailed`, exactly when the exit evaluation failed,
revisions were left, and the revised result was invalid), or the
revision budget ran out (`budgetExhausted`, when the `while` condition
is false or no revisions are left after a failed evaluation) - and in
every iteration that does not exit exactly one revision is performed:
the number of body entries equals the number of performed revisions,
plus one for the in-body exit when there is one. -/
theorem loop_exit_characterization (cfg : Config)
    (env : StoryOrchestrator.OrchEnv) (u : String)
    (st : StoryOrchestrator.LoopState) :
    ((StoryOrchestrator.refineGo cfg env u st).reason = .approved →
      (StoryOrchestrator.evalOf cfg env u
        (StoryOrchestrator.refineGo cfg env u st).story
        (StoryOrchestrator.refineGo cfg env u st).revision_count).meets_threshold = true) ∧
    ((StoryOrchestrator.refineGo cfg env u st).reason = .guardrailFailed →
      (StoryOrchestrator.evalOf cfg env u
        (StoryOrchestrator.refineGo cfg env u st).story
        (StoryOrchestrator.refineGo cfg env u st).revision_count).meets_threshold = false ∧
      (StoryOrchestrator.refineGo cfg env u st).revision_count <
        cfg.max_revision_attempts - 1 ∧
      (StoryOrchestrator.revisedOf cfg env u
        (StoryOrchestrator.refineGo cfg env u st).revision_count).is_valid = false) ∧
    ((StoryOrchestrator.refineGo cfg env u st).reason = .budgetExhausted →
      cfg.max_revision_attempts ≤ (StoryOrchestrator.refineGo cfg env u st).revision_count ∨
      ((StoryOrchestrator.evalOf cfg env u
          (StoryOrchestrator.refineGo cfg env u st).story
          (StoryOrchestrator.refineGo cfg env u st).revision_count).meets_threshold = false ∧
        ¬ (StoryOrchestrator.refineGo cfg env u st).revision_count <
          cfg.max_revision_attempts - 1)) ∧
    st.revision_count ≤ (StoryOrchestrator.refineGo cfg env u st).revision_count ∧
    ((StoryOrchestrator.refineGo cfg env u st).iterations =
        (StoryOrchestrator.refineGo cfg env u st).revision_count - st.revision_count ∨
      (StoryOrchestrator.refineGo cfg env u st).iterations =
        (StoryOrchestrator.refineGo cfg env u st).revision_count - st.revision_count + 1) :=
  ⟨(StoryOrchestrator.refineGo_exit_char cfg env u st).1,
   (StoryOrchestrator.refineGo_exit_char cfg env u st).2.1,
   (StoryOrchestrator.refineGo_exit_char cfg env u st).2.2,
   StoryOrchestrator.refineGo_le_revision_count cfg env u st,
   StoryOrchestrator.refineGo_iterations_eq cfg env u st⟩

/-- Witness for C3 at the concrete environment `envW`, instantiating
the characterization. -/
theorem loop_exit_characterization_witness :
    ((StoryOrchestrator.refineGo cfgW envW "u" stW).reason = .approved →
      (StoryOrchestrator.evalOf cfgW envW "u"
        (StoryOrchestrator.refineGo cfgW envW "u" stW).story
        (StoryOrchestrator.refineGo cfgW envW "u" stW).revision_count).meets_threshold = true) ∧
    ((StoryOrchestrator.refineGo cfgW envW "u" stW).reason = .guardrailFailed →
      (StoryOrchestrator.evalOf cfgW envW "u"
        (StoryOrchestrator.refineGo cfgW envW "u" stW).story
        (StoryOrchestrator.refineGo cfgW envW "u" stW).revision_count).meets_threshold = false ∧
      (StoryOrchestrator.refineGo cfgW envW "u" stW).revision_count <
        cfgW.max_revision_attempts - 1 ∧
      (StoryOrchestrator.revisedOf cfgW envW "u"
        (StoryOrchestrator.refineGo cfgW envW "u" stW).revision_count).is_valid = false) ∧
    ((StoryOrchestrator.refineGo cfgW envW "u" stW).reason = .budgetExhausted →
      cfgW.max_revision_attempts ≤ (StoryOrchestrator.refineGo cfgW envW "u" stW).revision_count ∨
      ((StoryOrchestrator.evalOf cfgW envW "u"
          (StoryOrchestrator.refineGo cfgW envW "u" stW).story
          (StoryOrchestrator.refineGo cfgW envW "u" stW).revision_count).meets_threshold = false ∧
        ¬ (StoryOrchestrator.refineGo cfgW envW "u" stW).revision_count <
          cfgW.max_revision_attempts - 1)) ∧
    stW.revision_count ≤ (StoryOrchestrator.refineGo cfgW envW "u" stW).revision_count ∧
    ((StoryOrchestrator.refineGo cfgW envW "u" stW).iterations =
        (StoryOrchestrator.refineGo cfgW envW "u" stW).revision_count - stW.revision_count ∨
      (StoryOrchestrator.refineGo cfgW envW "u" stW).iterations =
        (StoryOrchestrator.refineGo cfgW envW "u" stW).revision_count - stW.revision_count + 1) :=
  loop_exit_characterization cfgW envW "u" stW

/-- C6: the quality threshold is a pure minimum-score comparison.  On
every evaluation that reaches the parsing path (no error field),
`meets_threshold` is true exactly when the parsed overall score is at
least `minimum_acceptance_score`; and from any loop state with budget
left, the loop exits as `approved` exactly when the evaluation of the
exit state meets the threshold. -/
theorem quality_threshold_semantics :
    (∀ (ms : ℚ) (s u raw : String) (data : PyVal) (r : StoryJudge.EvalResult),
      StoryJudge.evaluate_story ms s u (.ok (raw, data)) = r →
      r.error = Option.none →
      (r.meets_threshold = true ↔ ms ≤ r.overall_score)) ∧
    (∀ (cfg : Config) (env : StoryOrchestrator.OrchEnv) (u : String)
      (st : StoryOrchestrator.LoopState),
      st.revision_count < cfg.max_revision_attempts →
      ((StoryOrchestrator.refineGo cfg env u st).reason = .approved ↔
        (StoryJudge.evaluate_story cfg.minimum_acceptance_score
          (StoryOrchestrator.refineGo cfg env u st).story u
          (env.judgeApi (StoryOrchestrator.refineGo cfg env u st).revision_count)).meets_threshold = true)) := by
  constructor
  · intro ms s u raw data r h herr
    unfold StoryJudge.evaluate_story at h
    split at h
    · rw [← h] at herr
      exact absurd herr (by simp [StoryJudge.emptyStoryResult])
    · dsimp only at h
      split at h
      case h_1 r0 heq =>
        subst h
        have hm := evalParse_meets ms raw data r0 heq
        rw [hm.1]
        simp
      case h_2 e heq =>
        rw [← h] at herr
        exact absurd herr (by simp [StoryJudge.exceptionResult])
  · intro cfg env u st hlt
    exact StoryOrchestrator.refineGo_approved_iff cfg env u st hlt

/-- The judge data used in the C6 witness: overall score 8. -/
def highScoreData : PyVal := .dict [("scores", .dict [("overall", .int 8)])]

/-- Witness for C6: a parsed evaluation with overall score 8 against
threshold 7, and the loop iff at the concrete low-scoring environment. -/
theorem quality_threshold_semantics_witness :
    ((StoryJudge.evaluate_story 7 "a tale" "u" (.ok ("resp", highScoreData))).error = Option.none ∧
     stW.revision_count < cfgW.max_revision_attempts) ∧
    (((StoryJudge.evaluate_story 7 "a tale" "u" (.ok ("resp", highScoreData))).meets_threshold = true ↔
      7 ≤ (StoryJudge.evaluate_story 7 "a tale" "u" (.ok ("resp", highScoreData))).overall_score) ∧
     ((StoryOrchestrator.refineGo cfgW envW "u" stW).reason = .approved ↔
       (StoryJudge.evaluate_story cfgW.minimum_acceptance_score
         (StoryOrchestrator.refineGo cfgW envW "u" stW).story "u"
         (envW.judgeApi (StoryOrchestrator.refineGo cfgW envW "u" stW).revision_count)).meets_threshold = true)) :=
  ⟨⟨by decide, by decide⟩,
   quality_threshold_semantics.1 7 "a tale" "u" "resp" highScoreData _ rfl (by decide),
   quality_threshold_semantics.2 cfgW envW "u" stW (by decide)⟩

/-- C10: `generate_story` never lets an exception escape its `try`
block: when the story API call raises, the returned dict has the empty
story, `is_valid = False` and the exception text in `error`; when the
call succeeds (and the guardrail validation returns normally), the
returned `is_valid` equals the `is_valid` of the guardrail validation
of the returned story. -/
theorem generate_story_error_boundary (cfg : Config)
    (env : Storyteller.GenEnv) (u : String) :
    (∀ e, env.storyApi = .error e →
      (Storyteller.generate_story cfg env u).story = "" ∧
      (Storyteller.generate_story cfg env u).is_valid = false ∧
      (Storyteller.generate_story cfg env u).error = Option.some e) ∧
    (∀ c v, env.storyApi = .ok c →
      StoryGuardrails.validate_story cfg env.safetyApi (c.getD "") = .ok v →
      (Storyteller.generate_story cfg env u).is_valid = v.is_valid) := by
  constructor
  · intro e he
    unfold Storyteller.generate_story
    rw [he]
    exact ⟨rfl, rfl, rfl⟩
  · intro c v hc hv
    unfold Storyteller.generate_story
    rw [hc]
    dsimp only
    rw [hv]

/-- A story passing both the (oracle-approved) safety check and the
age heuristics. -/
def storyW : String := "The kind friend helps with a happy laugh and joy."

/-- A generation environment whose story API succeeds and whose safety
model approves. -/
def genEnvOkW : Storyteller.GenEnv :=
  { catApi := .error "down", storyApi := .ok (Option.some storyW),
    safetyApi := .ok (.dict [("is_safe", .bool true)]) }

/-- The validation of `storyW` under `genEnvOkW`. -/
def valW : StoryGuardrails.ValidationResult :=
  { is_valid := true, is_safe := .bool true, is_age_appropriate := true,
    safety_violations := .list [], age_issues := [], all_issues := .list [] }

/-- Witness for C10: a failing story API yields the error dict, a
successful one propagates the guardrail verdict. -/
theorem generate_story_error_boundary_witness :
    (genEnvFail.storyApi = Except.error "api down" ∧
     genEnvOkW.storyApi = Except.ok (Option.some storyW) ∧
     StoryGuardrails.validate_story cfgW genEnvOkW.safetyApi
       ((Option.some storyW).getD "") = .ok valW) ∧
    ((Storyteller.generate_story cfgW genEnvFail "u").story = "" ∧
     (Storyteller.generate_story cfgW genEnvFail "u").is_valid = false ∧
     (Storyteller.generate_story cfgW genEnvFail "u").error = Option.some "api down") ∧
    (Storyteller.generate_story cfgW genEnvOkW "u").is_valid = valW.is_valid :=
  ⟨⟨rfl, rfl, rfl⟩,
   (generate_story_error_boundary cfgW genEnvFail "u").1 "api down" rfl,
   (generate_story_error_boundary cfgW genEnvOkW "u").2 (Option.some storyW) valW rfl rfl⟩
